import Mathlib

/-
  Verification development for the dsw2to3 registry migration
  (src/dsw2to3/migration/registry.py).

  The entity records, the integrity checker (RegistryEntities) and the
  orchestrator (RegistryMigrator) are embedded as pure Lean functions with
  explicit state passing.  Python's in-place mutation of the entity lists
  becomes functional update of a RegistryEntities value; the external store
  clients (PostgresDB, MongoDB, S3Storage, living in connection.py which is
  not part of the sources here) are modelled at the boundary described by
  the specification.

  AuditEntry.get_id calls uuid.uuid4() on every invocation.  Randomness of
  uuid4 is modelled by a fresh-token counter threaded through the checker
  state: each call consumes one token, and distinct tokens never collide
  (the collision-freeness of uuid4).  An AuditEntry identity is therefore
  modelled as the pair (organization_id, token), abstracting the Python
  string f-concatenation of the organization id with the fresh uuid.
-/

namespace Dsw2to3

/-- ActionKey record (registry.py, dataclass ActionKey). -/
structure ActionKey where
  uuid : String
  organization_id : String
  type : String
  hash : String
  created_at : Int := 0
  integrity_ok : Bool := true
deriving DecidableEq, Repr

def ActionKey.get_id (k : ActionKey) : String := k.uuid

/-- AuditEntry record (registry.py, dataclass AuditEntry). -/
structure AuditEntry where
  type : String
  organization_id : String
  instance_statistics : Option String := none
  package_id : String := ""
  created_at : Int := 0
  integrity_ok : Bool := true
deriving DecidableEq, Repr

/-- AuditEntry.get_id returns f-string of organization_id and a fresh
uuid.uuid4(); the fresh uuid is modelled by the token argument, and the
identity by the pair (collision-free concatenation). -/
def AuditEntry.get_id (a : AuditEntry) (token : Nat) : String × Nat :=
  (a.organization_id, token)

/-- Rendering of a modelled AuditEntry identity, mirroring the f-string
of AuditEntry.get_id. -/
def auditIdStr (i : String × Nat) : String :=
  i.1 ++ "_" ++ toString i.2

/-- Organization record (registry.py, dataclass Organization). -/
structure Organization where
  organization_id : String
  name : String := ""
  description : String := ""
  email : String := ""
  role : String := ""
  token : String := ""
  active : Bool := true
  logo : String := ""
  created_at : Int := 0
  updated_at : Int := 0
  integrity_ok : Bool := true
deriving DecidableEq, Repr

def Organization.get_id (o : Organization) : String := o.organization_id

/-- Modelled from the spec: the Package record lives in
migration/entitites.py, which is not among the sources; §3 gives its
identity (package id) and its three optional self-references, and
registry.py reads fields previous_package_id, fork_of_package_id and
merge_checkpoint_package_id on it. -/
structure Package where
  id : String
  previous_package_id : Option String := none
  fork_of_package_id : Option String := none
  merge_checkpoint_package_id : Option String := none
  integrity_ok : Bool := true
deriving DecidableEq, Repr

def Package.get_id (p : Package) : String := p.id

/-- Modelled from the spec: the Template record lives in
migration/entitites.py, which is not among the sources; §3 gives its
identity (template id) and no outgoing references. -/
structure Template where
  id : String
  integrity_ok : Bool := true
deriving DecidableEq, Repr

def Template.get_id (t : Template) : String := t.id

/-- Modelled from the spec: the TemplateAsset record lives in
migration/entitites.py, which is not among the sources; §3 gives its
identity (uuid) and its required Template reference, and registry.py reads
fields template_id, original_uuid, content_type and uuid on it. -/
structure TemplateAsset where
  uuid : String
  template_id : String
  original_uuid : String := ""
  content_type : String := ""
  integrity_ok : Bool := true
deriving DecidableEq, Repr

def TemplateAsset.get_id (a : TemplateAsset) : String := a.uuid

/-- Modelled from the spec: the TemplateFile record lives in
migration/entitites.py, which is not among the sources; §3 gives its
identity (uuid) and its required Template reference, and registry.py reads
field template_id on it. -/
structure TemplateFile where
  uuid : String
  template_id : String
  integrity_ok : Bool := true
deriving DecidableEq, Repr

def TemplateFile.get_id (f : TemplateFile) : String := f.uuid

/-- RegistryEntities state (registry.py): the seven collections, the
accumulating violation list _result, and the fresh-token counter modelling
uuid.uuid4 freshness for AuditEntry.get_id. -/
structure RegistryEntities where
  action_keys : List ActionKey := []
  audit_entries : List AuditEntry := []
  organizations : List Organization := []
  packages : List Package := []
  templates : List Template := []
  template_assets : List TemplateAsset := []
  template_files : List TemplateFile := []
  result : List String := []
  fresh : Nat := 0
deriving DecidableEq, Repr

/-- RegistryEntities.valid_entries: the entries whose integrity_ok is not
False. -/
def valid_entries {α : Type} (getOk : α → Bool) (l : List α) : List α :=
  l.filter (fun x => !(getOk x == false))

/-- RegistryMigrator._run_insert's filter: the entries whose integrity_ok
is True. -/
def ok_instances {α : Type} (getOk : α → Bool) (l : List α) : List α :=
  l.filter (fun x => getOk x == true)

/-- The f-string of RegistryEntities._check_uniqueness. -/
def mkDupMsg (kind idStr : String) : String :=
  "Duplicate ID for " ++ kind ++ ": " ++ idStr

/-- The f-string of RegistryEntities._check_reference and
_check_optional_reference. -/
def mkMissingMsg (target field ref kind idStr : String) : String :=
  "Missing " ++ target ++ " (" ++ field ++ "=" ++ ref ++ ") for "
    ++ kind ++ ": " ++ idStr

/-- RegistryEntities._check_uniqueness for the entity kinds whose get_id is
a stored field: scan in order, keep a seen set, flip every later duplicate
to Invalid and emit one message for it.  Returns the updated list and the
messages in emission order. -/
def check_uniqueness {α ι : Type} [DecidableEq ι] (kind : String)
    (getId : α → ι) (showId : ι → String) (inval : α → α) :
    List α → List ι → List α × List String
  | [], _ => ([], [])
  | x :: xs, seen =>
      let i := getId x
      if i ∈ seen then
        let r := check_uniqueness kind getId showId inval xs seen
        (inval x :: r.1, mkDupMsg kind (showId i) :: r.2)
      else
        let r := check_uniqueness kind getId showId inval xs (i :: seen)
        (x :: r.1, r.2)

/-- RegistryEntities._check_uniqueness for audit_entries: AuditEntry.get_id
consumes a fresh uuid token on every call. -/
def check_uniqueness_audit :
    List AuditEntry → List (String × Nat) → Nat →
      List AuditEntry × Nat × List String
  | [], _, n => ([], n, [])
  | x :: xs, seen, n =>
      let i := AuditEntry.get_id x n
      if i ∈ seen then
        let r := check_uniqueness_audit xs seen (n + 1)
        ({ x with integrity_ok := false } :: r.1,
         r.2.1, mkDupMsg "AuditEntry" (auditIdStr i) :: r.2.2)
      else
        let r := check_uniqueness_audit xs (i :: seen) (n + 1)
        (x :: r.1, r.2.1, r.2.2)

/-- The ActionKey uniqueness pass as _check_uniqueness runs it (fresh seen
set, identity extraction ActionKey.get_id). -/
def uniq_action_keys (l : List ActionKey) : List ActionKey × List String :=
  check_uniqueness "ActionKey" ActionKey.get_id (fun i => i)
    (fun x => { x with integrity_ok := false }) l []

/-- The Organization uniqueness pass. -/
def uniq_organizations (l : List Organization) :
    List Organization × List String :=
  check_uniqueness "Organization" Organization.get_id (fun i => i)
    (fun x => { x with integrity_ok := false }) l []

/-- The Package uniqueness pass. -/
def uniq_packages (l : List Package) : List Package × List String :=
  check_uniqueness "Package" Package.get_id (fun i => i)
    (fun x => { x with integrity_ok := false }) l []

/-- The Template uniqueness pass. -/
def uniq_templates (l : List Template) : List Template × List String :=
  check_uniqueness "Template" Template.get_id (fun i => i)
    (fun x => { x with integrity_ok := false }) l []

/-- The TemplateAsset uniqueness pass. -/
def uniq_template_assets (l : List TemplateAsset) :
    List TemplateAsset × List String :=
  check_uniqueness "TemplateAsset" TemplateAsset.get_id (fun i => i)
    (fun x => { x with integrity_ok := false }) l []

/-- The TemplateFile uniqueness pass. -/
def uniq_template_files (l : List TemplateFile) :
    List TemplateFile × List String :=
  check_uniqueness "TemplateFile" TemplateFile.get_id (fun i => i)
    (fun x => { x with integrity_ok := false }) l []

/-- The whole uniqueness phase of RegistryEntities.check_integrity: one
uniqueness pass per entity kind, in LIST_ENTITY order (action_keys,
audit_entries, organizations, packages, templates, template_assets,
template_files). -/
def check_uniqueness_all (s : RegistryEntities) : RegistryEntities :=
  let ak := uniq_action_keys s.action_keys
  let ae := check_uniqueness_audit s.audit_entries [] s.fresh
  let og := uniq_organizations s.organizations
  let pk := uniq_packages s.packages
  let tp := uniq_templates s.templates
  let ta := uniq_template_assets s.template_assets
  let tf := uniq_template_files s.template_files
  { s with
      action_keys := ak.1
      audit_entries := ae.1
      organizations := og.1
      packages := pk.1
      templates := tp.1
      template_assets := ta.1
      template_files := tf.1
      fresh := ae.2.1
      result := s.result ++ ak.2 ++ ae.2.2 ++ og.2 ++ pk.2 ++ tp.2
        ++ ta.2 ++ tf.2 }

/-- RegistryEntities._make_ids_set: the identities of the currently valid
entries (the frozenset is modelled by a list with membership). -/
def make_ids_set {α : Type} (getId : α → String) (getOk : α → Bool)
    (l : List α) : List String :=
  (valid_entries getOk l).map getId

/-- RegistryEntities._check_reference: for every still-valid entry, flip it
to Invalid with a message when its required reference is not among the
valid target ids.  Entries already Invalid are left untouched. -/
def check_reference {α : Type} (kind target field : String)
    (getId : α → String) (getRef : α → String)
    (getOk : α → Bool) (inval : α → α) (ids : List String) :
    List α → List α × List String
  | [] => ([], [])
  | x :: xs =>
      let r := check_reference kind target field getId getRef getOk inval ids xs
      if getOk x then
        if getRef x ∈ ids then (x :: r.1, r.2)
        else (inval x :: r.1,
          mkMissingMsg target field (getRef x) kind (getId x) :: r.2)
      else (x :: r.1, r.2)

/-- RegistryEntities._check_optional_reference: same as check_reference but
a None reference is always acceptable. -/
def check_optional_reference {α : Type} (kind target field : String)
    (getId : α → String) (getRef : α → Option String)
    (getOk : α → Bool) (inval : α → α) (ids : List String) :
    List α → List α × List String
  | [] => ([], [])
  | x :: xs =>
      let r := check_optional_reference kind target field getId getRef getOk
        inval ids xs
      if getOk x then
        match getRef x with
        | none => (x :: r.1, r.2)
        | some ref =>
            if ref ∈ ids then (x :: r.1, r.2)
            else (inval x :: r.1,
              mkMissingMsg target field ref kind (getId x) :: r.2)
      else (x :: r.1, r.2)

/-- Outcome of one reference pass: the four updated collections and the
messages the pass emitted. -/
structure RefOutcome where
  action_keys : List ActionKey
  packages : List Package
  template_assets : List TemplateAsset
  template_files : List TemplateFile
  msgs : List String

/-- The ActionKey→Organization required-reference check on field
organization_id. -/
def chk_action_keys (ids : List String) (l : List ActionKey) :
    List ActionKey × List String :=
  check_reference "ActionKey" "Organization" "organization_id"
    ActionKey.get_id (fun k => k.organization_id) (fun k => k.integrity_ok)
    (fun k => { k with integrity_ok := false }) ids l

/-- The Package→Package optional-reference check on previous_package_id. -/
def chk_previous (ids : List String) (l : List Package) :
    List Package × List String :=
  check_optional_reference "Package" "Package" "previous_package_id"
    Package.get_id (fun p => p.previous_package_id) (fun p => p.integrity_ok)
    (fun p => { p with integrity_ok := false }) ids l

/-- The Package→Package optional-reference check on fork_of_package_id. -/
def chk_fork_of (ids : List String) (l : List Package) :
    List Package × List String :=
  check_optional_reference "Package" "Package" "fork_of_package_id"
    Package.get_id (fun p => p.fork_of_package_id) (fun p => p.integrity_ok)
    (fun p => { p with integrity_ok := false }) ids l

/-- The Package→Package optional-reference check on
merge_checkpoint_package_id. -/
def chk_merge_checkpoint (ids : List String) (l : List Package) :
    List Package × List String :=
  check_optional_reference "Package" "Package" "merge_checkpoint_package_id"
    Package.get_id (fun p => p.merge_checkpoint_package_id)
    (fun p => p.integrity_ok)
    (fun p => { p with integrity_ok := false }) ids l

/-- The TemplateAsset→Template required-reference check on template_id. -/
def chk_template_assets (ids : List String) (l : List TemplateAsset) :
    List TemplateAsset × List String :=
  check_reference "TemplateAsset" "Template" "template_id"
    TemplateAsset.get_id (fun a => a.template_id) (fun a => a.integrity_ok)
    (fun a => { a with integrity_ok := false }) ids l

/-- The TemplateFile→Template required-reference check on template_id. -/
def chk_template_files (ids : List String) (l : List TemplateFile) :
    List TemplateFile × List String :=
  check_reference "TemplateFile" "Template" "template_id"
    TemplateFile.get_id (fun f => f.template_id) (fun f => f.integrity_ok)
    (fun f => { f with integrity_ok := false }) ids l

/-- The core of RegistryEntities._check_references: collect the ids of the
valid Organizations, Packages and Templates once at the start of the pass,
then run the six reference checks in source order (ActionKey→Organization;
Package→Package on previous, fork-of, merge-checkpoint; TemplateAsset→
Template; TemplateFile→Template). -/
def check_references_core (aks : List ActionKey) (orgs : List Organization)
    (pks : List Package) (tpls : List Template)
    (tas : List TemplateAsset) (tfs : List TemplateFile) : RefOutcome :=
  let user_ids := make_ids_set Organization.get_id
    (fun o => o.integrity_ok) orgs
  let package_ids := make_ids_set Package.get_id
    (fun p => p.integrity_ok) pks
  let template_ids := make_ids_set Template.get_id
    (fun t => t.integrity_ok) tpls
  let a := chk_action_keys user_ids aks
  let p1 := chk_previous package_ids pks
  let p2 := chk_fork_of package_ids p1.1
  let p3 := chk_merge_checkpoint package_ids p2.1
  let t1 := chk_template_assets template_ids tas
  let t2 := chk_template_files template_ids tfs
  ⟨a.1, p3.1, t1.1, t2.1, a.2 ++ p1.2 ++ p2.2 ++ p3.2 ++ t1.2 ++ t2.2⟩

/-- RegistryEntities._check_references: run one reference pass and append
its messages to _result. -/
def check_references (s : RegistryEntities) : RegistryEntities :=
  let c := check_references_core s.action_keys s.organizations s.packages
    s.templates s.template_assets s.template_files
  { s with
      action_keys := c.action_keys
      packages := c.packages
      template_assets := c.template_assets
      template_files := c.template_files
      result := s.result ++ c.msgs }

/-- The while loop of RegistryEntities.check_integrity: repeat
_check_references while the previous call appended new messages.  The fuel
argument is a modelling device for the unbounded Python while loop; the
lemma check_references_loop_fuel_eq shows any fuel above the number of
currently valid records gives the same outcome, so exhaustion is
unreachable for the fuel check_integrity supplies.  Returns the final state
and the number of _check_references calls made. -/
def check_references_loop :
    Nat → RegistryEntities → RegistryEntities × Nat
  | 0, s => (s, 0)
  | fuel + 1, s =>
      let t := check_references s
      if t.result.length = s.result.length then (t, 1)
      else
        let r := check_references_loop fuel t
        (r.1, r.2 + 1)

/-- Total number of records across the seven collections. -/
def total_records (s : RegistryEntities) : Nat :=
  s.action_keys.length + s.audit_entries.length + s.organizations.length
    + s.packages.length + s.templates.length + s.template_assets.length
    + s.template_files.length

/-- Number of records currently marked Valid across the seven collections. -/
def total_true (s : RegistryEntities) : Nat :=
  (s.action_keys.countP (fun x => x.integrity_ok))
    + (s.audit_entries.countP (fun x => x.integrity_ok))
    + (s.organizations.countP (fun x => x.integrity_ok))
    + (s.packages.countP (fun x => x.integrity_ok))
    + (s.templates.countP (fun x => x.integrity_ok))
    + (s.template_assets.countP (fun x => x.integrity_ok))
    + (s.template_files.countP (fun x => x.integrity_ok))

/-- RegistryEntities.check_integrity: clear _result, run one uniqueness
pass per entity kind, then repeat reference passes until one adds no new
violation.  The returned state carries the violation list in result. -/
def RegistryEntities.check_integrity (s : RegistryEntities) :
    RegistryEntities :=
  let s1 := check_uniqueness_all { s with result := [] }
  (check_references_loop (total_records s1 + 2) s1).1

/-- Number of reference passes (calls of _check_references, the loop
counter the code logs) made by a check_integrity call. -/
def reference_passes (s : RegistryEntities) : Nat :=
  let s1 := check_uniqueness_all { s with result := [] }
  (check_references_loop (total_records s1 + 2) s1).2

/-- Modelled from the spec: MigrationOptions lives in migration/common.py,
which is not among the sources; §6 gives the two operator flags the
orchestrator consumes. -/
structure MigrationOptions where
  dry_run : Bool := false
  fix_integrity : Bool := false
deriving DecidableEq, Repr

/-- A statement sent to the target relational store (spec §6, Target Store
Client boundary).  insertInto carries the table and the number of valid
rows handed to the insertion loop. -/
inductive PGStmt where
  | deleteFrom (table : String)
  | disableTriggers (table : String)
  | enableTriggers (table : String)
  | insertInto (table : String) (rows : Nat)
deriving DecidableEq, Repr

/-- Modelled from the spec: PostgresDB lives in connection.py, which is not
among the sources; §6 gives its boundary (execute, commit, close) and §5
its transactional behaviour.  executed records every statement sent,
pending the uncommitted ones, committed the durable destination state. -/
structure PostgresDB where
  executed : List PGStmt := []
  pending : List PGStmt := []
  committed : List PGStmt := []
  commits : Nat := 0
  closes : Nat := 0
deriving DecidableEq, Repr

/-- Send one statement: it is always executed, but stays pending until a
commit makes it durable. -/
def PostgresDB.execute (pg : PostgresDB) (st : PGStmt) : PostgresDB :=
  { pg with executed := pg.executed ++ [st], pending := pg.pending ++ [st] }

def PostgresDB.commit (pg : PostgresDB) : PostgresDB :=
  { pg with
      committed := pg.committed ++ pg.pending
      pending := []
      commits := pg.commits + 1 }

def PostgresDB.close (pg : PostgresDB) : PostgresDB :=
  { pg with closes := pg.closes + 1 }

/-- An object held in the S3 bucket (spec §6, Object Store Client). -/
structure S3Object where
  template_id : String
  file_name : String
  content_type : String
  data : String
deriving DecidableEq, Repr

/-- Modelled from the spec: S3Storage lives in connection.py, which is not
among the sources; §6 gives its boundary (bucket existence and creation,
counting, deleting and storing template assets).  closes counts connection
releases (spec §5). -/
structure S3Storage where
  bucket : Bool := false
  objects : List S3Object := []
  closes : Nat := 0
deriving DecidableEq, Repr

def S3Storage.store_template_asset (s3 : S3Storage)
    (template_id file_name content_type data : String) : S3Storage :=
  { s3 with objects := s3.objects ++ [⟨template_id, file_name, content_type, data⟩] }

/-- Modelled from the spec: MongoDB lives in connection.py, which is not
among the sources; §6 gives its read-only boundary (load the collections,
fetch an asset payload by its original id).  The collections are held
already normalized; closes counts connection releases (spec §5). -/
structure MongoDB where
  action_keys : List ActionKey := []
  audit_entries : List AuditEntry := []
  organizations : List Organization := []
  packages : List Package := []
  templates : List Template := []
  template_assets : List TemplateAsset := []
  template_files : List TemplateFile := []
  asset_data : List (String × String) := []
  closes : Nat := 0
deriving DecidableEq, Repr

/-- MongoDB.fetch_asset: the binary payload stored under an original
asset id, if any. -/
def MongoDB.fetch_asset (m : MongoDB) (original : String) : Option String :=
  (m.asset_data.find? (fun p => p.1 == original)).map (fun p => p.2)

/-- Table names: ActionKey, AuditEntry and Organization declare theirs in
registry.py; the other four live in entitites.py, modelled from the spec
after the destination tables §4.3 names. -/
def actionKeyTable : String := "action_key"

def auditTable : String := "audit"

def organizationTable : String := "organization"

def packageTable : String := "package"

def templateTable : String := "template"

def templateAssetTable : String := "template_asset"

def templateFileTable : String := "template_file"

/-- RegistryMigrator._TABLES_CLEANUP: all tables, children before
parents. -/
def TABLES_CLEANUP : List String :=
  [actionKeyTable, auditTable, organizationTable, templateAssetTable,
   templateFileTable, templateTable, packageTable]

/-- RegistryMigrator state: options, the in-memory entity snapshot, and
the three store clients. -/
structure RegistryMigrator where
  options : MigrationOptions
  entities : RegistryEntities := {}
  postgres : PostgresDB := {}
  mongo : MongoDB := {}
  s3 : S3Storage := {}
deriving DecidableEq, Repr

namespace RegistryMigrator

/-- RegistryMigrator.cleanup_postgres: delete from every table in cleanup
order, then commit only when not in dry-run mode. -/
def cleanup_postgres (m : RegistryMigrator) : RegistryMigrator :=
  let pg := TABLES_CLEANUP.foldl
    (fun pg t => pg.execute (PGStmt.deleteFrom t)) m.postgres
  let pg := if m.options.dry_run then pg else pg.commit
  { m with postgres := pg }

/-- RegistryMigrator.cleanup_s3: if the bucket exists and holds templates,
delete them (skipped in dry-run); if it does not exist, create it (skipped
in dry-run). -/
def cleanup_s3 (m : RegistryMigrator) : RegistryMigrator :=
  if m.s3.bucket then
    if m.s3.objects.length > 0 then
      if m.options.dry_run then m
      else { m with s3 := { m.s3 with objects := [] } }
    else m
  else
    if m.options.dry_run then m
    else { m with s3 := { m.s3 with bucket := true } }

/-- The entity snapshot as RegistryMigrator.load leaves it: every
collection replaced by the source store's. -/
def loaded_entities (m : RegistryMigrator) : RegistryEntities :=
  { m.entities with
      action_keys := m.mongo.action_keys
      audit_entries := m.mongo.audit_entries
      organizations := m.mongo.organizations
      packages := m.mongo.packages
      templates := m.mongo.templates
      template_assets := m.mongo.template_assets
      template_files := m.mongo.template_files }

/-- RegistryMigrator.load: populate the seven collections from the source
store (simple kinds, then the nested template assets and files). -/
def load (m : RegistryMigrator) : RegistryMigrator :=
  { m with entities := loaded_entities m }

/-- RegistryMigrator.check_integrity: run the checker and keep its state;
the violation list decides whether the run may continue. -/
def check_integrity_phase (m : RegistryMigrator) :
    RegistryMigrator × List String :=
  let e := m.entities.check_integrity
  ({ m with entities := e }, e.result)

/-- RegistryMigrator._run_insert: hand only the records whose
integrity_ok is True to the insertion loop, wrapping the Package batch
(and only it, per _INSERT_ARGS) in a disable/enable of the table's
triggers. -/
def run_insert (pg : PostgresDB) (table : String) (rows : Nat)
    (disable_triggers : Bool) : PostgresDB :=
  let pg := if disable_triggers
    then pg.execute (PGStmt.disableTriggers table) else pg
  let pg := pg.execute (PGStmt.insertInto table rows)
  if disable_triggers then pg.execute (PGStmt.enableTriggers table) else pg

/-- RegistryMigrator.insert: run the per-kind insertions in _INSERT_ARGS
order (Package with triggers disabled, then Template, AuditEntry,
Organization, ActionKey, TemplateAsset, TemplateFile), then commit unless
in dry-run mode. -/
def insert (m : RegistryMigrator) : RegistryMigrator :=
  let e := m.entities
  let pg := m.postgres
  let pg := run_insert pg packageTable
    (ok_instances (fun p => p.integrity_ok) e.packages).length true
  let pg := run_insert pg templateTable
    (ok_instances (fun t => t.integrity_ok) e.templates).length false
  let pg := run_insert pg auditTable
    (ok_instances (fun a => a.integrity_ok) e.audit_entries).length false
  let pg := run_insert pg organizationTable
    (ok_instances (fun o => o.integrity_ok) e.organizations).length false
  let pg := run_insert pg actionKeyTable
    (ok_instances (fun k => k.integrity_ok) e.action_keys).length false
  let pg := run_insert pg templateAssetTable
    (ok_instances (fun a => a.integrity_ok) e.template_assets).length false
  let pg := run_insert pg templateFileTable
    (ok_instances (fun f => f.integrity_ok) e.template_files).length false
  let pg := if m.options.dry_run then pg else pg.commit
  { m with postgres := pg }

/-- The list RegistryMigrator.migrate_template_assets iterates: the valid
template assets. -/
def assets_to_migrate (m : RegistryMigrator) : List TemplateAsset :=
  valid_entries (fun a => a.integrity_ok) m.entities.template_assets

/-- The asset-transfer loop: fetch each payload, count a miss as skipped,
and store the asset unless in dry-run mode. -/
def migrate_assets_loop (mongo : MongoDB) (dry_run : Bool) :
    List TemplateAsset → S3Storage → S3Storage × Nat × Nat
  | [], s3 => (s3, 0, 0)
  | a :: rest, s3 =>
      match mongo.fetch_asset a.original_uuid with
      | none =>
          let r := migrate_assets_loop mongo dry_run rest s3
          (r.1, r.2.1, r.2.2 + 1)
      | some d =>
          let s3 := if dry_run then s3
            else s3.store_template_asset a.template_id a.uuid a.content_type d
          let r := migrate_assets_loop mongo dry_run rest s3
          (r.1, r.2.1 + 1, r.2.2)

/-- RegistryMigrator.migrate_template_assets: transfer every valid asset's
payload to the object store, tallying stored and skipped counts. -/
def migrate_template_assets (m : RegistryMigrator) :
    RegistryMigrator × Nat × Nat :=
  let r := migrate_assets_loop m.mongo m.options.dry_run
    (assets_to_migrate m) m.s3
  ({ m with s3 := r.1 }, r.2.1, r.2.2)

/-- RegistryMigrator.finish: close the connections held by the migrator;
the code closes only the PostgreSQL client. -/
def finish (m : RegistryMigrator) : RegistryMigrator :=
  { m with postgres := m.postgres.close }

/-- RegistryMigrator.migrate: cleanup, load, verify, insert, transfer
assets.  When the checker reports violations and fix_integrity is not set,
ERROR_HANDLER.error aborts the run (modelled from the spec §7: an
integrity violation is fatal to the run unless fix-integrity is set;
errors.py is not among the sources). -/
def migrate (m : RegistryMigrator) : RegistryMigrator :=
  let m := cleanup_postgres m
  let m := cleanup_s3 m
  let m := load m
  let r := check_integrity_phase m
  let m := r.1
  if !m.options.fix_integrity && r.2.length > 0 then m
  else (migrate_template_assets (insert m)).1

end RegistryMigrator

/-- The same migrator with the dry-run flag set to b. -/
def setDryRun (m : RegistryMigrator) (b : Bool) : RegistryMigrator :=
  { m with options := { m.options with dry_run := b } }

/-- The delete statements the cleanup phase sends, in cleanup order. -/
def cleanup_stmts : List PGStmt := TABLES_CLEANUP.map PGStmt.deleteFrom

/-- The statements the insertion phase sends for a given snapshot:
the _INSERT_ARGS order, with the Package batch alone wrapped in a
disable/enable of its triggers. -/
def insert_stmts (e : RegistryEntities) : List PGStmt :=
  [PGStmt.disableTriggers packageTable,
   PGStmt.insertInto packageTable
     (ok_instances (fun p => p.integrity_ok) e.packages).length,
   PGStmt.enableTriggers packageTable,
   PGStmt.insertInto templateTable
     (ok_instances (fun t => t.integrity_ok) e.templates).length,
   PGStmt.insertInto auditTable
     (ok_instances (fun a => a.integrity_ok) e.audit_entries).length,
   PGStmt.insertInto organizationTable
     (ok_instances (fun o => o.integrity_ok) e.organizations).length,
   PGStmt.insertInto actionKeyTable
     (ok_instances (fun k => k.integrity_ok) e.action_keys).length,
   PGStmt.insertInto templateAssetTable
     (ok_instances (fun a => a.integrity_ok) e.template_assets).length,
   PGStmt.insertInto templateFileTable
     (ok_instances (fun f => f.integrity_ok) e.template_files).length]

/-- The statements a whole migrate run sends to the target store: the
cleanup deletes, then (unless the run aborts on integrity violations) the
insertion statements for the verified snapshot. -/
def migrate_stmts (m : RegistryMigrator) : List PGStmt :=
  cleanup_stmts ++
    (if !m.options.fix_integrity
        && (RegistryMigrator.loaded_entities m).check_integrity.result.length
             > 0 then []
     else insert_stmts (RegistryMigrator.loaded_entities m).check_integrity)

section CheckLemmas

variable {α : Type}

theorem check_reference_length (kind target field : String)
    (getId : α → String) (getRef : α → String) (getOk : α → Bool)
    (inval : α → α) (ids : List String) (l : List α) :
    (check_reference kind target field getId getRef getOk inval ids l).1.length
      = l.length := by
  induction l with
  | nil => simp [check_reference]
  | cons x xs ih =>
      simp only [check_reference]
      by_cases h1 : getOk x = true
      · by_cases h2 : getRef x ∈ ids
        · simp [h1, h2, ih]
        · simp [h1, h2, ih]
      · simp [h1, ih]

theorem check_reference_conservation (kind target field : String)
    (getId : α → String) (getRef : α → String) (getOk : α → Bool)
    (inval : α → α) (hinv : ∀ x, getOk (inval x) = false)
    (ids : List String) (l : List α) :
    (check_reference kind target field getId getRef getOk inval ids l).2.length
        + (check_reference kind target field getId getRef getOk inval
            ids l).1.countP getOk
      = l.countP getOk := by
  induction l with
  | nil => simp [check_reference]
  | cons x xs ih =>
      simp only [check_reference]
      by_cases h1 : getOk x = true
      · by_cases h2 : getRef x ∈ ids
        · simp [h1, h2, List.countP_cons]; omega
        · simp [h1, h2, List.countP_cons, hinv]; omega
      · simp [h1, List.countP_cons]; omega

theorem check_reference_msgs_nil (kind target field : String)
    (getId : α → String) (getRef : α → String) (getOk : α → Bool)
    (inval : α → α) (ids : List String) (l : List α)
    (h : (check_reference kind target field getId getRef getOk inval
        ids l).2 = []) :
    (check_reference kind target field getId getRef getOk inval ids l).1
      = l := by
  induction l with
  | nil => simp [check_reference]
  | cons x xs ih =>
      simp only [check_reference] at h ⊢
      by_cases h1 : getOk x = true
      · by_cases h2 : getRef x ∈ ids
        · simp only [h1, h2, if_true, if_pos] at h ⊢
          simp at h ⊢
          exact ih h
        · simp [h1, h2] at h
      · simp [h1] at h ⊢
        exact ih h

theorem check_optional_reference_length (kind target field : String)
    (getId : α → String) (getRef : α → Option String) (getOk : α → Bool)
    (inval : α → α) (ids : List String) (l : List α) :
    (check_optional_reference kind target field getId getRef getOk inval
        ids l).1.length = l.length := by
  induction l with
  | nil => simp [check_optional_reference]
  | cons x xs ih =>
      simp only [check_optional_reference]
      by_cases h1 : getOk x = true
      · cases hr : getRef x with
        | none => simp [h1, hr, ih]
        | some ref =>
            by_cases h2 : ref ∈ ids
            · simp [h1, hr, h2, ih]
            · simp [h1, hr, h2, ih]
      · simp [h1, ih]

theorem check_optional_reference_conservation (kind target field : String)
    (getId : α → String) (getRef : α → Option String) (getOk : α → Bool)
    (inval : α → α) (hinv : ∀ x, getOk (inval x) = false)
    (ids : List String) (l : List α) :
    (check_optional_reference kind target field getId getRef getOk inval
        ids l).2.length
      + (check_optional_reference kind target field getId getRef getOk inval
          ids l).1.countP getOk
      = l.countP getOk := by
  induction l with
  | nil => simp [check_optional_reference]
  | cons x xs ih =>
      simp only [check_optional_reference]
      by_cases h1 : getOk x = true
      · cases hr : getRef x with
        | none => simp [h1, hr, List.countP_cons]; omega
        | some ref =>
            by_cases h2 : ref ∈ ids
            · simp [h1, hr, h2, List.countP_cons]; omega
            · simp [h1, hr, h2, List.countP_cons, hinv]; omega
      · simp [h1, List.countP_cons]; omega

theorem check_optional_reference_msgs_nil (kind target field : String)
    (getId : α → String) (getRef : α → Option String) (getOk : α → Bool)
    (inval : α → α) (ids : List String) (l : List α)
    (h : (check_optional_reference kind target field getId getRef getOk inval
        ids l).2 = []) :
    (check_optional_reference kind target field getId getRef getOk inval
        ids l).1 = l := by
  induction l with
  | nil => simp [check_optional_reference]
  | cons x xs ih =>
      simp only [check_optional_reference] at h ⊢
      by_cases h1 : getOk x = true
      · cases hr : getRef x with
        | none =>
            simp [h1, hr] at h ⊢
            exact ih h
        | some ref =>
            by_cases h2 : ref ∈ ids
            · simp [h1, hr, h2] at h ⊢
              exact ih h
            · simp [h1, hr, h2] at h
      · simp [h1] at h ⊢
        exact ih h

end CheckLemmas

theorem check_uniqueness_length {α ι : Type} [DecidableEq ι] (kind : String)
    (getId : α → ι) (showId : ι → String) (inval : α → α) :
    ∀ (l : List α) (seen : List ι),
      (check_uniqueness kind getId showId inval l seen).1.length
        = l.length := by
  intro l
  induction l with
  | nil => intro seen; simp [check_uniqueness]
  | cons x xs ih =>
      intro seen
      simp only [check_uniqueness]
      by_cases h1 : getId x ∈ seen
      · simp [h1, ih]
      · simp [h1, ih]

theorem check_uniqueness_bound {α ι : Type} [DecidableEq ι] (kind : String)
    (getId : α → ι) (showId : ι → String) (inval : α → α) (getOk : α → Bool)
    (hinv : ∀ x, getOk (inval x) = false) :
    ∀ (l : List α) (seen : List ι),
      (check_uniqueness kind getId showId inval l seen).2.length
          + (check_uniqueness kind getId showId inval l seen).1.countP getOk
        ≤ l.length := by
  intro l
  induction l with
  | nil => intro seen; simp [check_uniqueness]
  | cons x xs ih =>
      intro seen
      simp only [check_uniqueness]
      by_cases h1 : getId x ∈ seen
      · simp [h1, List.countP_cons, hinv]
        have := ih seen
        omega
      · simp [h1, List.countP_cons]
        have := ih (getId x :: seen)
        by_cases hx : getOk x = true <;> simp [hx] <;> omega

theorem check_uniqueness_msgs_nil {α ι : Type} [DecidableEq ι] (kind : String)
    (getId : α → ι) (showId : ι → String) (inval : α → α) :
    ∀ (l : List α) (seen : List ι),
      (check_uniqueness kind getId showId inval l seen).2 = [] →
      (check_uniqueness kind getId showId inval l seen).1 = l := by
  intro l
  induction l with
  | nil => intro seen _; simp [check_uniqueness]
  | cons x xs ih =>
      intro seen h
      simp only [check_uniqueness] at h ⊢
      by_cases h1 : getId x ∈ seen
      · simp [h1] at h
      · simp [h1] at h ⊢
        exact ih (getId x :: seen) h

/-- AuditEntry identities are synthesized with a fresh token per call, so a
uniqueness pass whose seen set only holds older tokens changes nothing,
consumes one token per record, and emits no message. -/
theorem check_uniqueness_audit_fresh :
    ∀ (l : List AuditEntry) (seen : List (String × Nat)) (n : Nat),
      (∀ p ∈ seen, p.2 < n) →
      check_uniqueness_audit l seen n = (l, n + l.length, []) := by
  intro l
  induction l with
  | nil => intro seen n _; simp [check_uniqueness_audit]
  | cons x xs ih =>
      intro seen n h
      have hni : AuditEntry.get_id x n ∉ seen := by
        intro hc
        have := h _ hc
        simp [AuditEntry.get_id] at this
      simp only [check_uniqueness_audit]
      rw [if_neg hni]
      have h2 : ∀ p ∈ AuditEntry.get_id x n :: seen, p.2 < n + 1 := by
        intro p hp
        rcases List.mem_cons.mp hp with hp | hp
        · subst hp; simp [AuditEntry.get_id]
        · exact Nat.lt_succ_of_lt (h _ hp)
      rw [ih _ _ h2]
      simp only [List.length_cons, Prod.mk.injEq]
      exact ⟨trivial, by omega, trivial⟩

theorem RegistryEntities.ext_eq (a b : RegistryEntities)
    (h1 : a.action_keys = b.action_keys)
    (h2 : a.audit_entries = b.audit_entries)
    (h3 : a.organizations = b.organizations)
    (h4 : a.packages = b.packages)
    (h5 : a.templates = b.templates)
    (h6 : a.template_assets = b.template_assets)
    (h7 : a.template_files = b.template_files)
    (h8 : a.result = b.result)
    (h9 : a.fresh = b.fresh) : a = b := by
  cases a; cases b; simp_all

theorem chk_action_keys_conservation (ids : List String)
    (l : List ActionKey) :
    (chk_action_keys ids l).2.length
        + (chk_action_keys ids l).1.countP (fun k => k.integrity_ok)
      = l.countP (fun k => k.integrity_ok) :=
  check_reference_conservation _ _ _ _ _ _ _ (fun _ => rfl) ids l

theorem chk_action_keys_msgs_nil (ids : List String) (l : List ActionKey)
    (h : (chk_action_keys ids l).2 = []) : (chk_action_keys ids l).1 = l :=
  check_reference_msgs_nil _ _ _ _ _ _ _ ids l h

theorem chk_action_keys_length (ids : List String) (l : List ActionKey) :
    (chk_action_keys ids l).1.length = l.length :=
  check_reference_length _ _ _ _ _ _ _ ids l

theorem chk_previous_conservation (ids : List String) (l : List Package) :
    (chk_previous ids l).2.length
        + (chk_previous ids l).1.countP (fun p => p.integrity_ok)
      = l.countP (fun p => p.integrity_ok) :=
  check_optional_reference_conservation _ _ _ _ _ _ _ (fun _ => rfl) ids l

theorem chk_previous_msgs_nil (ids : List String) (l : List Package)
    (h : (chk_previous ids l).2 = []) : (chk_previous ids l).1 = l :=
  check_optional_reference_msgs_nil _ _ _ _ _ _ _ ids l h

theorem chk_previous_length (ids : List String) (l : List Package) :
    (chk_previous ids l).1.length = l.length :=
  check_optional_reference_length _ _ _ _ _ _ _ ids l

theorem chk_fork_of_conservation (ids : List String) (l : List Package) :
    (chk_fork_of ids l).2.length
        + (chk_fork_of ids l).1.countP (fun p => p.integrity_ok)
      = l.countP (fun p => p.integrity_ok) :=
  check_optional_reference_conservation _ _ _ _ _ _ _ (fun _ => rfl) ids l

theorem chk_fork_of_msgs_nil (ids : List String) (l : List Package)
    (h : (chk_fork_of ids l).2 = []) : (chk_fork_of ids l).1 = l :=
  check_optional_reference_msgs_nil _ _ _ _ _ _ _ ids l h

theorem chk_fork_of_length (ids : List String) (l : List Package) :
    (chk_fork_of ids l).1.length = l.length :=
  check_optional_reference_length _ _ _ _ _ _ _ ids l

theorem chk_merge_checkpoint_conservation (ids : List String)
    (l : List Package) :
    (chk_merge_checkpoint ids l).2.length
        + (chk_merge_checkpoint ids l).1.countP (fun p => p.integrity_ok)
      = l.countP (fun p => p.integrity_ok) :=
  check_optional_reference_conservation _ _ _ _ _ _ _ (fun _ => rfl) ids l

theorem chk_merge_checkpoint_msgs_nil (ids : List String) (l : List Package)
    (h : (chk_merge_checkpoint ids l).2 = []) :
    (chk_merge_checkpoint ids l).1 = l :=
  check_optional_reference_msgs_nil _ _ _ _ _ _ _ ids l h

theorem chk_merge_checkpoint_length (ids : List String) (l : List Package) :
    (chk_merge_checkpoint ids l).1.length = l.length :=
  check_optional_reference_length _ _ _ _ _ _ _ ids l

theorem chk_template_assets_conservation (ids : List String)
    (l : List TemplateAsset) :
    (chk_template_assets ids l).2.length
        + (chk_template_assets ids l).1.countP (fun a => a.integrity_ok)
      = l.countP (fun a => a.integrity_ok) :=
  check_reference_conservation _ _ _ _ _ _ _ (fun _ => rfl) ids l

theorem chk_template_assets_msgs_nil (ids : List String)
    (l : List TemplateAsset)
    (h : (chk_template_assets ids l).2 = []) :
    (chk_template_assets ids l).1 = l :=
  check_reference_msgs_nil _ _ _ _ _ _ _ ids l h

theorem chk_template_assets_length (ids : List String)
    (l : List TemplateAsset) :
    (chk_template_assets ids l).1.length = l.length :=
  check_reference_length _ _ _ _ _ _ _ ids l

theorem chk_template_files_conservation (ids : List String)
    (l : List TemplateFile) :
    (chk_template_files ids l).2.length
        + (chk_template_files ids l).1.countP (fun f => f.integrity_ok)
      = l.countP (fun f => f.integrity_ok) :=
  check_reference_conservation _ _ _ _ _ _ _ (fun _ => rfl) ids l

theorem chk_template_files_msgs_nil (ids : List String)
    (l : List TemplateFile)
    (h : (chk_template_files ids l).2 = []) :
    (chk_template_files ids l).1 = l :=
  check_reference_msgs_nil _ _ _ _ _ _ _ ids l h

theorem chk_template_files_length (ids : List String)
    (l : List TemplateFile) :
    (chk_template_files ids l).1.length = l.length :=
  check_reference_length _ _ _ _ _ _ _ ids l

theorem check_references_result_eq (s : RegistryEntities) :
    (check_references s).result
      = s.result ++ (check_references_core s.action_keys s.organizations
          s.packages s.templates s.template_assets s.template_files).msgs :=
  rfl

theorem check_references_core_conservation (aks : List ActionKey)
    (orgs : List Organization) (pks : List Package) (tpls : List Template)
    (tas : List TemplateAsset) (tfs : List TemplateFile) :
    (check_references_core aks orgs pks tpls tas tfs).msgs.length
        + (check_references_core aks orgs pks tpls tas
            tfs).action_keys.countP (fun k => k.integrity_ok)
        + (check_references_core aks orgs pks tpls tas
            tfs).packages.countP (fun p => p.integrity_ok)
        + (check_references_core aks orgs pks tpls tas
            tfs).template_assets.countP (fun a => a.integrity_ok)
        + (check_references_core aks orgs pks tpls tas
            tfs).template_files.countP (fun f => f.integrity_ok)
      = aks.countP (fun k => k.integrity_ok)
        + pks.countP (fun p => p.integrity_ok)
        + tas.countP (fun a => a.integrity_ok)
        + tfs.countP (fun f => f.integrity_ok) := by
  have h1 := chk_action_keys_conservation
    (make_ids_set Organization.get_id (fun o => o.integrity_ok) orgs) aks
  have h2 := chk_previous_conservation
    (make_ids_set Package.get_id (fun p => p.integrity_ok) pks) pks
  have h3 := chk_fork_of_conservation
    (make_ids_set Package.get_id (fun p => p.integrity_ok) pks)
    (chk_previous
      (make_ids_set Package.get_id (fun p => p.integrity_ok) pks) pks).1
  have h4 := chk_merge_checkpoint_conservation
    (make_ids_set Package.get_id (fun p => p.integrity_ok) pks)
    (chk_fork_of (make_ids_set Package.get_id (fun p => p.integrity_ok) pks)
      (chk_previous
        (make_ids_set Package.get_id (fun p => p.integrity_ok) pks) pks).1).1
  have h5 := chk_template_assets_conservation
    (make_ids_set Template.get_id (fun t => t.integrity_ok) tpls) tas
  have h6 := chk_template_files_conservation
    (make_ids_set Template.get_id (fun t => t.integrity_ok) tpls) tfs
  simp only [check_references_core, List.length_append]
  omega

theorem check_references_conservation (s : RegistryEntities) :
    (check_references s).result.length + total_true (check_references s)
      = s.result.length + total_true s := by
  have h := check_references_core_conservation s.action_keys s.organizations
    s.packages s.templates s.template_assets s.template_files
  simp only [check_references, total_true, List.length_append]
  omega

theorem check_references_total_records (s : RegistryEntities) :
    total_records (check_references s) = total_records s := by
  have h1 := chk_action_keys_length
    (make_ids_set Organization.get_id (fun o => o.integrity_ok)
      s.organizations) s.action_keys
  have h2 := chk_previous_length
    (make_ids_set Package.get_id (fun p => p.integrity_ok) s.packages)
    s.packages
  have h3 := chk_fork_of_length
    (make_ids_set Package.get_id (fun p => p.integrity_ok) s.packages)
    (chk_previous
      (make_ids_set Package.get_id (fun p => p.integrity_ok) s.packages)
      s.packages).1
  have h4 := chk_merge_checkpoint_length
    (make_ids_set Package.get_id (fun p => p.integrity_ok) s.packages)
    (chk_fork_of
      (make_ids_set Package.get_id (fun p => p.integrity_ok) s.packages)
      (chk_previous
        (make_ids_set Package.get_id (fun p => p.integrity_ok) s.packages)
        s.packages).1).1
  have h5 := chk_template_assets_length
    (make_ids_set Template.get_id (fun t => t.integrity_ok) s.templates)
    s.template_assets
  have h6 := chk_template_files_length
    (make_ids_set Template.get_id (fun t => t.integrity_ok) s.templates)
    s.template_files
  simp only [check_references, total_records, check_references_core]
  omega

theorem check_references_no_new (s : RegistryEntities)
    (h : (check_references s).result.length = s.result.length) :
    check_references s = s := by
  have hmsgs : (check_references_core s.action_keys s.organizations
      s.packages s.templates s.template_assets s.template_files).msgs
      = [] := by
    rw [check_references_result_eq, List.length_append] at h
    refine List.length_eq_zero.mp (by omega)
  have hdec := hmsgs
  simp only [check_references_core, List.append_eq_nil] at hdec
  obtain ⟨⟨⟨⟨⟨hA, hP1⟩, hP2⟩, hP3⟩, hT1⟩, hT2⟩ := hdec
  have eA := chk_action_keys_msgs_nil _ _ hA
  have eP1 := chk_previous_msgs_nil _ _ hP1
  have eP2 := chk_fork_of_msgs_nil _ _ hP2
  have eP3 := chk_merge_checkpoint_msgs_nil _ _ hP3
  have eT1 := chk_template_assets_msgs_nil _ _ hT1
  have eT2 := chk_template_files_msgs_nil _ _ hT2
  apply RegistryEntities.ext_eq
  · exact eA
  · rfl
  · rfl
  · exact eP3.trans (eP2.trans eP1)
  · rfl
  · exact eT1
  · exact eT2
  · rw [check_references_result_eq, hmsgs, List.append_nil]
  · rfl

theorem check_references_loop_result_prefix :
    ∀ (fuel : Nat) (s : RegistryEntities),
      ∃ u, (check_references_loop fuel s).1.result = s.result ++ u := by
  intro fuel
  induction fuel with
  | zero => intro s; exact ⟨[], by simp [check_references_loop]⟩
  | succ f ih =>
      intro s
      simp only [check_references_loop]
      by_cases h : (check_references s).result.length = s.result.length
      · rw [if_pos h]
        exact ⟨_, check_references_result_eq s⟩
      · rw [if_neg h]
        obtain ⟨u, hu⟩ := ih (check_references s)
        refine ⟨(check_references_core s.action_keys s.organizations
          s.packages s.templates s.template_assets
          s.template_files).msgs ++ u, ?_⟩
        rw [hu, check_references_result_eq s, List.append_assoc]

theorem check_references_loop_conservation :
    ∀ (fuel : Nat) (s : RegistryEntities),
      (check_references_loop fuel s).1.result.length
          + total_true (check_references_loop fuel s).1
        = s.result.length + total_true s := by
  intro fuel
  induction fuel with
  | zero => intro s; simp [check_references_loop]
  | succ f ih =>
      intro s
      simp only [check_references_loop]
      by_cases h : (check_references s).result.length = s.result.length
      · rw [if_pos h]
        exact check_references_conservation s
      · rw [if_neg h]
        have h1 := ih (check_references s)
        have h2 := check_references_conservation s
        simp only []
        omega

theorem check_references_loop_total_records :
    ∀ (fuel : Nat) (s : RegistryEntities),
      total_records (check_references_loop fuel s).1 = total_records s := by
  intro fuel
  induction fuel with
  | zero => intro s; simp [check_references_loop]
  | succ f ih =>
      intro s
      simp only [check_references_loop]
      by_cases h : (check_references s).result.length = s.result.length
      · rw [if_pos h]
        exact check_references_total_records s
      · rw [if_neg h]
        have h1 := ih (check_references s)
        have h2 := check_references_total_records s
        simp only []
        omega

theorem check_references_loop_fix :
    ∀ (fuel : Nat) (s : RegistryEntities), total_true s < fuel →
      check_references (check_references_loop fuel s).1
        = (check_references_loop fuel s).1 := by
  intro fuel
  induction fuel with
  | zero => intro s h; exact absurd h (Nat.not_lt_zero _)
  | succ f ih =>
      intro s h
      simp only [check_references_loop]
      by_cases hc : (check_references s).result.length = s.result.length
      · rw [if_pos hc]
        have he := check_references_no_new s hc
        simp only []
        rw [he]
        exact he
      · rw [if_neg hc]
        have hcons := check_references_conservation s
        have hlen : s.result.length ≤ (check_references s).result.length := by
          rw [check_references_result_eq, List.length_append]
          omega
        exact ih (check_references s) (by omega)

theorem uniq_action_keys_bound (l : List ActionKey) :
    (uniq_action_keys l).2.length
        + (uniq_action_keys l).1.countP (fun k => k.integrity_ok)
      ≤ l.length :=
  check_uniqueness_bound _ _ _ _ _ (fun _ => rfl) l []

theorem uniq_action_keys_length (l : List ActionKey) :
    (uniq_action_keys l).1.length = l.length :=
  check_uniqueness_length _ _ _ _ l []

theorem uniq_action_keys_msgs_nil (l : List ActionKey)
    (h : (uniq_action_keys l).2 = []) : (uniq_action_keys l).1 = l :=
  check_uniqueness_msgs_nil _ _ _ _ l [] h

theorem uniq_organizations_bound (l : List Organization) :
    (uniq_organizations l).2.length
        + (uniq_organizations l).1.countP (fun o => o.integrity_ok)
      ≤ l.length :=
  check_uniqueness_bound _ _ _ _ _ (fun _ => rfl) l []

theorem uniq_organizations_length (l : List Organization) :
    (uniq_organizations l).1.length = l.length :=
  check_uniqueness_length _ _ _ _ l []

theorem uniq_organizations_msgs_nil (l : List Organization)
    (h : (uniq_organizations l).2 = []) : (uniq_organizations l).1 = l :=
  check_uniqueness_msgs_nil _ _ _ _ l [] h

theorem uniq_packages_bound (l : List Package) :
    (uniq_packages l).2.length
        + (uniq_packages l).1.countP (fun p => p.integrity_ok)
      ≤ l.length :=
  check_uniqueness_bound _ _ _ _ _ (fun _ => rfl) l []

theorem uniq_packages_length (l : List Package) :
    (uniq_packages l).1.length = l.length :=
  check_uniqueness_length _ _ _ _ l []

theorem uniq_packages_msgs_nil (l : List Package)
    (h : (uniq_packages l).2 = []) : (uniq_packages l).1 = l :=
  check_uniqueness_msgs_nil _ _ _ _ l [] h

theorem uniq_templates_bound (l : List Template) :
    (uniq_templates l).2.length
        + (uniq_templates l).1.countP (fun t => t.integrity_ok)
      ≤ l.length :=
  check_uniqueness_bound _ _ _ _ _ (fun _ => rfl) l []

theorem uniq_templates_length (l : List Template) :
    (uniq_templates l).1.length = l.length :=
  check_uniqueness_length _ _ _ _ l []

theorem uniq_templates_msgs_nil (l : List Template)
    (h : (uniq_templates l).2 = []) : (uniq_templates l).1 = l :=
  check_uniqueness_msgs_nil _ _ _ _ l [] h

theorem uniq_template_assets_bound (l : List TemplateAsset) :
    (uniq_template_assets l).2.length
        + (uniq_template_assets l).1.countP (fun a => a.integrity_ok)
      ≤ l.length :=
  check_uniqueness_bound _ _ _ _ _ (fun _ => rfl) l []

theorem uniq_template_assets_length (l : List TemplateAsset) :
    (uniq_template_assets l).1.length = l.length :=
  check_uniqueness_length _ _ _ _ l []

theorem uniq_template_assets_msgs_nil (l : List TemplateAsset)
    (h : (uniq_template_assets l).2 = []) : (uniq_template_assets l).1 = l :=
  check_uniqueness_msgs_nil _ _ _ _ l [] h

theorem uniq_template_files_bound (l : List TemplateFile) :
    (uniq_template_files l).2.length
        + (uniq_template_files l).1.countP (fun f => f.integrity_ok)
      ≤ l.length :=
  check_uniqueness_bound _ _ _ _ _ (fun _ => rfl) l []

theorem uniq_template_files_length (l : List TemplateFile) :
    (uniq_template_files l).1.length = l.length :=
  check_uniqueness_length _ _ _ _ l []

theorem uniq_template_files_msgs_nil (l : List TemplateFile)
    (h : (uniq_template_files l).2 = []) : (uniq_template_files l).1 = l :=
  check_uniqueness_msgs_nil _ _ _ _ l [] h

theorem audit_pass_id (l : List AuditEntry) (n : Nat) :
    check_uniqueness_audit l [] n = (l, n + l.length, []) :=
  check_uniqueness_audit_fresh l [] n (by simp)

theorem check_uniqueness_all_bound (s : RegistryEntities) :
    (check_uniqueness_all s).result.length
        + total_true (check_uniqueness_all s)
      ≤ s.result.length + total_records s := by
  have hak := uniq_action_keys_bound s.action_keys
  have hog := uniq_organizations_bound s.organizations
  have hpk := uniq_packages_bound s.packages
  have htp := uniq_templates_bound s.templates
  have hta := uniq_template_assets_bound s.template_assets
  have htf := uniq_template_files_bound s.template_files
  have hae := audit_pass_id s.audit_entries s.fresh
  have hae1 : (check_uniqueness_audit s.audit_entries [] s.fresh).1
      = s.audit_entries := by rw [hae]
  have hae2 : (check_uniqueness_audit s.audit_entries [] s.fresh).2.2
      = [] := by rw [hae]
  have haecnt := @List.countP_le_length AuditEntry (fun x => x.integrity_ok)
    s.audit_entries
  simp only [check_uniqueness_all, total_true, total_records,
    List.length_append]
  rw [hae1, hae2]
  simp only [List.length_nil]
  omega

theorem check_uniqueness_all_total_records (s : RegistryEntities) :
    total_records (check_uniqueness_all s) = total_records s := by
  have hak := uniq_action_keys_length s.action_keys
  have hog := uniq_organizations_length s.organizations
  have hpk := uniq_packages_length s.packages
  have htp := uniq_templates_length s.templates
  have hta := uniq_template_assets_length s.template_assets
  have htf := uniq_template_files_length s.template_files
  have hae := audit_pass_id s.audit_entries s.fresh
  have hae1 : (check_uniqueness_audit s.audit_entries [] s.fresh).1
      = s.audit_entries := by rw [hae]
  simp only [check_uniqueness_all, total_records]
  rw [hae1]
  omega

theorem total_true_le_total_records (s : RegistryEntities) :
    total_true s ≤ total_records s := by
  have h1 := @List.countP_le_length ActionKey (fun x => x.integrity_ok)
    s.action_keys
  have h2 := @List.countP_le_length AuditEntry (fun x => x.integrity_ok)
    s.audit_entries
  have h3 := @List.countP_le_length Organization (fun x => x.integrity_ok)
    s.organizations
  have h4 := @List.countP_le_length Package (fun x => x.integrity_ok)
    s.packages
  have h5 := @List.countP_le_length Template (fun x => x.integrity_ok)
    s.templates
  have h6 := @List.countP_le_length TemplateAsset (fun x => x.integrity_ok)
    s.template_assets
  have h7 := @List.countP_le_length TemplateFile (fun x => x.integrity_ok)
    s.template_files
  simp only [total_true, total_records]
  omega

theorem check_references_loop_passes :
    ∀ (fuel : Nat) (s : RegistryEntities),
      (check_references_loop fuel s).2 ≤ total_true s + 1 := by
  intro fuel
  induction fuel with
  | zero => intro s; simp [check_references_loop]
  | succ f ih =>
      intro s
      simp only [check_references_loop]
      by_cases hc : (check_references s).result.length = s.result.length
      · rw [if_pos hc]
        simp
      · rw [if_neg hc]
        have h1 := ih (check_references s)
        have hcons := check_references_conservation s
        have hlen : s.result.length ≤ (check_references s).result.length := by
          rw [check_references_result_eq, List.length_append]
          omega
        simp only []
        omega

theorem check_uniqueness_all_result_eq (s : RegistryEntities) :
    (check_uniqueness_all s).result
      = s.result ++ (uniq_action_keys s.action_keys).2
        ++ (check_uniqueness_audit s.audit_entries [] s.fresh).2.2
        ++ (uniq_organizations s.organizations).2
        ++ (uniq_packages s.packages).2
        ++ (uniq_templates s.templates).2
        ++ (uniq_template_assets s.template_assets).2
        ++ (uniq_template_files s.template_files).2 := rfl

/-- A uniqueness phase that emits no message for any entity kind leaves the
collections and the accumulated result untouched; only the fresh-token
counter advances (one uuid consumed per audit entry). -/
theorem check_uniqueness_all_clean (s : RegistryEntities)
    (hA : (uniq_action_keys s.action_keys).2 = [])
    (hO : (uniq_organizations s.organizations).2 = [])
    (hP : (uniq_packages s.packages).2 = [])
    (hT : (uniq_templates s.templates).2 = [])
    (hTA : (uniq_template_assets s.template_assets).2 = [])
    (hTF : (uniq_template_files s.template_files).2 = []) :
    check_uniqueness_all s
      = { s with fresh := s.fresh + s.audit_entries.length } := by
  have hae := audit_pass_id s.audit_entries s.fresh
  apply RegistryEntities.ext_eq
  · exact uniq_action_keys_msgs_nil _ hA
  · show (check_uniqueness_audit s.audit_entries [] s.fresh).1
      = s.audit_entries
    rw [hae]
  · exact uniq_organizations_msgs_nil _ hO
  · exact uniq_packages_msgs_nil _ hP
  · exact uniq_templates_msgs_nil _ hT
  · exact uniq_template_assets_msgs_nil _ hTA
  · exact uniq_template_files_msgs_nil _ hTF
  · rw [check_uniqueness_all_result_eq, hA, hO, hP, hT, hTA, hTF]
    have hae2 : (check_uniqueness_audit s.audit_entries [] s.fresh).2.2
        = [] := by rw [hae]
    rw [hae2]
    simp
  · show (check_uniqueness_audit s.audit_entries [] s.fresh).2.1
      = s.fresh + s.audit_entries.length
    rw [hae]

/-- check_references reads only the collections, so it commutes with
changing the fresh-token counter. -/
theorem check_references_fresh_congr (s : RegistryEntities) (n : Nat) :
    check_references { s with fresh := n }
      = { check_references s with fresh := n } := rfl

theorem check_references_loop_stable (fuel : Nat) (s : RegistryEntities)
    (h : check_references s = s) :
    (check_references_loop fuel s).1 = s := by
  cases fuel with
  | zero => rfl
  | succ f =>
      simp only [check_references_loop]
      have hlen : (check_references s).result.length = s.result.length := by
        rw [h]
      rw [if_pos hlen]
      exact h

theorem check_references_loop_result_nil (fuel : Nat)
    (s : RegistryEntities)
    (h : (check_references_loop fuel s).1.result = []) : s.result = [] := by
  obtain ⟨u, hu⟩ := check_references_loop_result_prefix fuel s
  rw [hu] at h
  exact (List.append_eq_nil.mp h).1

theorem check_references_loop_first_pass_nil (fuel : Nat)
    (s : RegistryEntities) (hf : 0 < fuel)
    (h : (check_references_loop fuel s).1.result = []) :
    (check_references s).result = [] := by
  cases fuel with
  | zero => exact absurd hf (by omega)
  | succ f =>
      simp only [check_references_loop] at h
      by_cases hc : (check_references s).result.length = s.result.length
      · rw [if_pos hc] at h
        exact h
      · rw [if_neg hc] at h
        exact check_references_loop_result_nil f (check_references s) h

theorem result_nil_update (s : RegistryEntities) (h : s.result = []) :
    ({ s with result := [] } : RegistryEntities) = s := by
  apply RegistryEntities.ext_eq <;> first | rfl | exact h.symm

/-- A state whose uniqueness passes are clean, whose result list is empty,
and which is a fixed point of the reference pass, verifies to an empty
violation list. -/
theorem check_integrity_stable_state (t : RegistryEntities)
    (hA : (uniq_action_keys t.action_keys).2 = [])
    (hO : (uniq_organizations t.organizations).2 = [])
    (hP : (uniq_packages t.packages).2 = [])
    (hT : (uniq_templates t.templates).2 = [])
    (hTA : (uniq_template_assets t.template_assets).2 = [])
    (hTF : (uniq_template_files t.template_files).2 = [])
    (hres : t.result = [])
    (hfixt : check_references t = t) :
    t.check_integrity.result = [] := by
  have ht : ({ t with result := [] } : RegistryEntities) = t :=
    result_nil_update t hres
  have hclean2 := check_uniqueness_all_clean { t with result := [] }
    hA hO hP hT hTA hTF
  rw [ht] at hclean2
  have hfix2 : check_references
      { t with fresh := t.fresh + t.audit_entries.length }
      = { t with fresh := t.fresh + t.audit_entries.length } := by
    rw [check_references_fresh_congr, hfixt]
  simp only [RegistryEntities.check_integrity]
  rw [ht, hclean2]
  rw [check_references_loop_stable _ _ hfix2]
  exact hres

/-- Claim C1: cascading invalidation reaches the fixed point pass by pass.
With Package B referencing a nonexistent previous package C and Package A
forking B, the first reference pass invalidates B (its message emitted) and
leaves A valid, since the valid-id sets were collected at the pass start;
the second pass invalidates A; check_integrity reports both Missing Package
violations in that order; convergence takes exactly two violation-adding
reference passes, the third call confirming the fixed point (3 calls of
_check_references in total, matching the loop counter). -/
theorem cascading_invalidation_two_passes :
    (check_references (check_uniqueness_all
        { packages := [{ id := "A", fork_of_package_id := some "B" },
                       { id := "B", previous_package_id := some "C" }] })).packages
      = [{ id := "A", fork_of_package_id := some "B" },
         { id := "B", previous_package_id := some "C",
           integrity_ok := false }] ∧
    (check_references (check_uniqueness_all
        { packages := [{ id := "A", fork_of_package_id := some "B" },
                       { id := "B", previous_package_id := some "C" }] })).result
      = ["Missing Package (previous_package_id=C) for Package: B"] ∧
    (check_references (check_references (check_uniqueness_all
        { packages := [{ id := "A", fork_of_package_id := some "B" },
                       { id := "B", previous_package_id := some "C" }] }))).packages
      = [{ id := "A", fork_of_package_id := some "B",
           integrity_ok := false },
         { id := "B", previous_package_id := some "C",
           integrity_ok := false }] ∧
    (RegistryEntities.check_integrity
        { packages := [{ id := "A", fork_of_package_id := some "B" },
                       { id := "B", previous_package_id := some "C" }] }).result
      = ["Missing Package (previous_package_id=C) for Package: B",
         "Missing Package (fork_of_package_id=B) for Package: A"] ∧
    reference_passes
        { packages := [{ id := "A", fork_of_package_id := some "B" },
                       { id := "B", previous_package_id := some "C" }] }
      = 3 ∧
    (check_references (check_references (check_references
        (check_uniqueness_all
          { packages := [{ id := "A", fork_of_package_id := some "B" },
                         { id := "B", previous_package_id := some "C" }]
          })))).result
      = ["Missing Package (previous_package_id=C) for Package: B",
         "Missing Package (fork_of_package_id=B) for Package: A"] := by
  decide

/-- Claim C3 (counterexample): check_integrity is not idempotent.  On a
snapshot holding one ActionKey whose organization does not exist, the first
call reports the missing reference, but the second call reports nothing:
the record was flipped to Invalid by the first call and reference checks
skip invalid records, so the violation is not reproduced. -/
theorem check_integrity_not_idempotent_counterexample :
    (RegistryEntities.check_integrity
        { action_keys := [{ uuid := "a1", organization_id := "o9",
                            type := "t", hash := "h" }] }).result
      = ["Missing Organization (organization_id=o9) for ActionKey: a1"] ∧
    (RegistryEntities.check_integrity (RegistryEntities.check_integrity
        { action_keys := [{ uuid := "a1", organization_id := "o9",
                            type := "t", hash := "h" }] })).result
      = [] := by
  decide

/-- Claim C3 (amended): check_integrity is idempotent exactly on snapshots
it reports clean: when the first call returns an empty violation list, a
second call on the unmutated (by the caller) state returns the same, empty
list.  (In general a second call reproduces only duplicate-ID violations,
never reference violations, as the counterexample shows.) -/
theorem check_integrity_idempotent_when_clean (s : RegistryEntities)
    (h : s.check_integrity.result = []) :
    s.check_integrity.check_integrity.result
      = s.check_integrity.result := by
  have hloopnil : (check_references_loop
      (total_records (check_uniqueness_all { s with result := [] }) + 2)
      (check_uniqueness_all { s with result := [] })).1.result = [] := h
  have hs1nil : (check_uniqueness_all { s with result := [] }).result = [] :=
    check_references_loop_result_nil _ _ hloopnil
  have hdec := hs1nil
  rw [check_uniqueness_all_result_eq] at hdec
  simp only [List.append_eq_nil] at hdec
  obtain ⟨⟨⟨⟨⟨⟨⟨-, hA⟩, hAE⟩, hO⟩, hP⟩, hT⟩, hTA⟩, hTF⟩ := hdec
  have hclean := check_uniqueness_all_clean { s with result := [] }
    hA hO hP hT hTA hTF
  have hfp : (check_references
      (check_uniqueness_all { s with result := [] })).result = [] := by
    refine check_references_loop_first_pass_nil _ _ (by omega) hloopnil
  have hfix : check_references (check_uniqueness_all { s with result := [] })
      = check_uniqueness_all { s with result := [] } := by
    apply check_references_no_new
    rw [hfp, hs1nil]
  have hci : s.check_integrity
      = check_uniqueness_all { s with result := [] } :=
    check_references_loop_stable _ _ hfix
  rw [hclean] at hci hfix
  rw [hci]
  have hstable := check_integrity_stable_state _
    (by exact hA) (by exact hO) (by exact hP) (by exact hT)
    (by exact hTA) (by exact hTF) (by rfl) hfix
  rw [hstable]

theorem check_integrity_idempotent_when_clean_witness :
    (RegistryEntities.check_integrity
        { action_keys := [{ uuid := "a1", organization_id := "o1",
                            type := "t", hash := "h" }],
          organizations := [{ organization_id := "o1" }] }).result = [] ∧
    (RegistryEntities.check_integrity (RegistryEntities.check_integrity
        { action_keys := [{ uuid := "a1", organization_id := "o1",
                            type := "t", hash := "h" }],
          organizations := [{ organization_id := "o1" }] })).result
      = (RegistryEntities.check_integrity
        { action_keys := [{ uuid := "a1", organization_id := "o1",
                            type := "t", hash := "h" }],
          organizations := [{ organization_id := "o1" }] }).result :=
  ⟨by decide, check_integrity_idempotent_when_clean _ (by decide)⟩

/-- Claim C4 (counterexample): the reference loop is not capped by the
total record count.  On the empty snapshot the code still performs one
reference pass while the total record count is zero, so the claimed cap is
exceeded; the loop in the code is a plain while with no explicit bound. -/
theorem reference_passes_cap_counterexample :
    reference_passes ({} : RegistryEntities) = 1 ∧
    total_records ({} : RegistryEntities) = 0 ∧
    ¬ reference_passes ({} : RegistryEntities)
        ≤ total_records ({} : RegistryEntities) := by
  decide

/-- Claim C4 (amended): the loop carries no explicit cap and terminates by
convergence detection alone; nevertheless the number of reference passes
(calls of _check_references) is provably at most the total record count
plus one, because every pass except the last invalidates at least one
record. -/
theorem reference_passes_le_total_records_succ (s : RegistryEntities) :
    reference_passes s ≤ total_records s + 1 := by
  simp only [reference_passes]
  have h1 := check_references_loop_passes
    (total_records (check_uniqueness_all { s with result := [] }) + 2)
    (check_uniqueness_all { s with result := [] })
  have h2 := total_true_le_total_records
    (check_uniqueness_all { s with result := [] })
  have h3 := check_uniqueness_all_total_records { s with result := [] }
  have h4 : total_records ({ s with result := [] } : RegistryEntities)
      = total_records s := rfl
  omega

/-- Claim C6: in the ActionKey uniqueness pass, records are scanned in
insertion order; when two records share a uuid, exactly the
second-encountered one is flipped to Invalid, exactly one message
Duplicate ID for ActionKey is emitted, and the first record is returned
untouched (so it remains Valid). -/
theorem duplicate_actionkey_second_flipped (k1 k2 : ActionKey)
    (h : k1.uuid = k2.uuid) :
    uniq_action_keys [k1, k2]
      = ([k1, { k2 with integrity_ok := false }],
         ["Duplicate ID for ActionKey: " ++ k1.uuid]) := by
  simp [uniq_action_keys, check_uniqueness, ActionKey.get_id, mkDupMsg, h]

theorem duplicate_actionkey_second_flipped_witness :
    uniq_action_keys
        [{ uuid := "u1", organization_id := "o1", type := "t",
           hash := "h" },
         { uuid := "u1", organization_id := "o2", type := "s",
           hash := "g" }]
      = ([{ uuid := "u1", organization_id := "o1", type := "t",
            hash := "h" },
          { uuid := "u1", organization_id := "o2", type := "s",
            hash := "g", integrity_ok := false }],
         ["Duplicate ID for ActionKey: u1"]) :=
  duplicate_actionkey_second_flipped _ _ rfl

/-- Claim C9 (implicit): within one check_integrity call each record
contributes at most one violation and is flipped at most once, so the
number of reported violations plus the number of records still valid at
the end never exceeds the total record count; in particular the violation
list has at most as many entries as there are records. -/
theorem violations_at_most_total_records (s : RegistryEntities) :
    s.check_integrity.result.length + total_true s.check_integrity
      ≤ total_records s := by
  simp only [RegistryEntities.check_integrity]
  have h1 := check_references_loop_conservation
    (total_records (check_uniqueness_all { s with result := [] }) + 2)
    (check_uniqueness_all { s with result := [] })
  have h2 := check_uniqueness_all_bound { s with result := [] }
  have h3 : ({ s with result := [] } : RegistryEntities).result.length
      = 0 := rfl
  have h4 : total_records ({ s with result := [] } : RegistryEntities)
      = total_records s := rfl
  omega

/-- Claim C10 (implicit): AuditEntry.get_id consumes a fresh uuid token on
every call, so two calls on the same record yield different identities,
and a uniqueness pass over audit entries flips no record and emits no
Duplicate ID for AuditEntry message, whatever the organization ids. -/
theorem audit_get_id_fresh_never_duplicate :
    (∀ (a : AuditEntry) (n m : Nat), n ≠ m →
        AuditEntry.get_id a n ≠ AuditEntry.get_id a m) ∧
    (∀ (l : List AuditEntry) (n : Nat),
        check_uniqueness_audit l [] n = (l, n + l.length, [])) := by
  constructor
  · intro a n m hnm hc
    simp only [AuditEntry.get_id, Prod.mk.injEq] at hc
    exact hnm hc.2
  · intro l n
    exact audit_pass_id l n

theorem audit_get_id_fresh_never_duplicate_witness :
    AuditEntry.get_id { type := "t", organization_id := "o" } 0
        ≠ AuditEntry.get_id { type := "t", organization_id := "o" } 1 ∧
    check_uniqueness_audit
        [{ type := "t", organization_id := "o" },
         { type := "t", organization_id := "o" }] [] 0
      = ([{ type := "t", organization_id := "o" },
          { type := "t", organization_id := "o" }], 2, []) :=
  ⟨audit_get_id_fresh_never_duplicate.1 _ 0 1 (by decide),
   audit_get_id_fresh_never_duplicate.2 _ 0⟩

namespace RegistryMigrator

theorem cleanup_postgres_options (m : RegistryMigrator) :
    (cleanup_postgres m).options = m.options := rfl

theorem cleanup_postgres_entities (m : RegistryMigrator) :
    (cleanup_postgres m).entities = m.entities := rfl

theorem cleanup_postgres_mongo (m : RegistryMigrator) :
    (cleanup_postgres m).mongo = m.mongo := rfl

theorem cleanup_postgres_s3 (m : RegistryMigrator) :
    (cleanup_postgres m).s3 = m.s3 := rfl

theorem cleanup_postgres_executed (m : RegistryMigrator) :
    (cleanup_postgres m).postgres.executed
      = m.postgres.executed ++ cleanup_stmts := by
  cases hd : m.options.dry_run <;>
    simp [cleanup_postgres, TABLES_CLEANUP, cleanup_stmts,
      PostgresDB.execute, PostgresDB.commit, hd]

theorem cleanup_postgres_closes (m : RegistryMigrator) :
    (cleanup_postgres m).postgres.closes = m.postgres.closes := by
  cases hd : m.options.dry_run <;>
    simp [cleanup_postgres, TABLES_CLEANUP,
      PostgresDB.execute, PostgresDB.commit, hd]

theorem cleanup_postgres_committed_dry (m : RegistryMigrator)
    (h : m.options.dry_run = true) :
    (cleanup_postgres m).postgres.committed = m.postgres.committed := by
  simp [cleanup_postgres, TABLES_CLEANUP, PostgresDB.execute, h]

theorem cleanup_postgres_commits_dry (m : RegistryMigrator)
    (h : m.options.dry_run = true) :
    (cleanup_postgres m).postgres.commits = m.postgres.commits := by
  simp [cleanup_postgres, TABLES_CLEANUP, PostgresDB.execute, h]

theorem cleanup_s3_postgres (m : RegistryMigrator) :
    (cleanup_s3 m).postgres = m.postgres := by
  unfold cleanup_s3
  repeat' split
  all_goals rfl

theorem cleanup_s3_entities (m : RegistryMigrator) :
    (cleanup_s3 m).entities = m.entities := by
  unfold cleanup_s3
  repeat' split
  all_goals rfl

theorem cleanup_s3_mongo (m : RegistryMigrator) :
    (cleanup_s3 m).mongo = m.mongo := by
  unfold cleanup_s3
  repeat' split
  all_goals rfl

theorem cleanup_s3_options (m : RegistryMigrator) :
    (cleanup_s3 m).options = m.options := by
  unfold cleanup_s3
  repeat' split
  all_goals rfl

theorem cleanup_s3_s3_closes (m : RegistryMigrator) :
    (cleanup_s3 m).s3.closes = m.s3.closes := by
  unfold cleanup_s3
  repeat' split
  all_goals rfl

theorem cleanup_s3_dry (m : RegistryMigrator)
    (h : m.options.dry_run = true) : cleanup_s3 m = m := by
  simp [cleanup_s3, h]

theorem load_postgres (m : RegistryMigrator) :
    (load m).postgres = m.postgres := rfl

theorem load_s3 (m : RegistryMigrator) : (load m).s3 = m.s3 := rfl

theorem load_mongo (m : RegistryMigrator) : (load m).mongo = m.mongo := rfl

theorem load_options (m : RegistryMigrator) :
    (load m).options = m.options := rfl

theorem load_entities (m : RegistryMigrator) :
    (load m).entities = loaded_entities m := rfl

theorem loaded_entities_congr (a b : RegistryMigrator)
    (he : a.entities = b.entities) (hm : a.mongo = b.mongo) :
    loaded_entities a = loaded_entities b := by
  unfold loaded_entities
  rw [he, hm]

theorem check_integrity_phase_fst_postgres (m : RegistryMigrator) :
    (check_integrity_phase m).1.postgres = m.postgres := rfl

theorem check_integrity_phase_fst_s3 (m : RegistryMigrator) :
    (check_integrity_phase m).1.s3 = m.s3 := rfl

theorem check_integrity_phase_fst_mongo (m : RegistryMigrator) :
    (check_integrity_phase m).1.mongo = m.mongo := rfl

theorem check_integrity_phase_fst_options (m : RegistryMigrator) :
    (check_integrity_phase m).1.options = m.options := rfl

theorem check_integrity_phase_fst_entities (m : RegistryMigrator) :
    (check_integrity_phase m).1.entities
      = m.entities.check_integrity := rfl

theorem check_integrity_phase_snd (m : RegistryMigrator) :
    (check_integrity_phase m).2
      = m.entities.check_integrity.result := rfl

theorem insert_entities (m : RegistryMigrator) :
    (insert m).entities = m.entities := rfl

theorem insert_mongo (m : RegistryMigrator) :
    (insert m).mongo = m.mongo := rfl

theorem insert_s3 (m : RegistryMigrator) : (insert m).s3 = m.s3 := rfl

theorem insert_options (m : RegistryMigrator) :
    (insert m).options = m.options := rfl

theorem insert_executed (m : RegistryMigrator) :
    (insert m).postgres.executed
      = m.postgres.executed ++ insert_stmts m.entities := by
  cases hd : m.options.dry_run <;>
    simp [insert, run_insert, insert_stmts,
      PostgresDB.execute, PostgresDB.commit, hd]

theorem insert_closes (m : RegistryMigrator) :
    (insert m).postgres.closes = m.postgres.closes := by
  cases hd : m.options.dry_run <;>
    simp [insert, run_insert, PostgresDB.execute, PostgresDB.commit, hd]

theorem insert_committed_dry (m : RegistryMigrator)
    (h : m.options.dry_run = true) :
    (insert m).postgres.committed = m.postgres.committed := by
  simp [insert, run_insert, PostgresDB.execute, h]

theorem insert_commits_dry (m : RegistryMigrator)
    (h : m.options.dry_run = true) :
    (insert m).postgres.commits = m.postgres.commits := by
  simp [insert, run_insert, PostgresDB.execute, h]

theorem migrate_assets_loop_closes (mongo : MongoDB) (d : Bool) :
    ∀ (l : List TemplateAsset) (s3 : S3Storage),
      (migrate_assets_loop mongo d l s3).1.closes = s3.closes := by
  intro l
  induction l with
  | nil => intro s3; rfl
  | cons a rest ih =>
      intro s3
      simp only [migrate_assets_loop]
      cases hf : mongo.fetch_asset a.original_uuid with
      | none => simp [ih]
      | some dta =>
          cases d <;> simp [ih, S3Storage.store_template_asset]

theorem migrate_assets_loop_dry (mongo : MongoDB) :
    ∀ (l : List TemplateAsset) (s3 : S3Storage),
      (migrate_assets_loop mongo true l s3).1 = s3 := by
  intro l
  induction l with
  | nil => intro s3; rfl
  | cons a rest ih =>
      intro s3
      simp only [migrate_assets_loop]
      cases hf : mongo.fetch_asset a.original_uuid with
      | none => simp [ih]
      | some dta => simp [ih]

theorem migrate_assets_loop_counts (mongo : MongoDB) (d : Bool) :
    ∀ (l : List TemplateAsset) (s3 : S3Storage),
      (migrate_assets_loop mongo d l s3).2
        = (l.countP (fun a => (mongo.fetch_asset a.original_uuid).isSome),
           l.countP (fun a => (mongo.fetch_asset a.original_uuid).isNone))
    := by
  intro l
  induction l with
  | nil => intro s3; rfl
  | cons a rest ih =>
      intro s3
      simp only [migrate_assets_loop]
      cases hf : mongo.fetch_asset a.original_uuid with
      | none => simp [hf, List.countP_cons, ih]
      | some dta =>
          cases d <;> simp [hf, List.countP_cons, ih]

theorem migrate_assets_loop_objects (mongo : MongoDB) (d : Bool) :
    ∀ (l : List TemplateAsset) (s3 : S3Storage) (obj : S3Object),
      obj ∈ (migrate_assets_loop mongo d l s3).1.objects →
      obj ∈ s3.objects
        ∨ ∃ a, a ∈ l ∧ obj.template_id = a.template_id
            ∧ obj.file_name = a.uuid := by
  intro l
  induction l with
  | nil => intro s3 obj h; exact Or.inl h
  | cons a rest ih =>
      intro s3 obj h
      simp only [migrate_assets_loop] at h
      cases hf : mongo.fetch_asset a.original_uuid with
      | none =>
          rw [hf] at h
          simp only [] at h
          rcases ih _ _ h with hin | ⟨b, hb, h1, h2⟩
          · exact Or.inl hin
          · exact Or.inr ⟨b, by simp [hb], h1, h2⟩
      | some dta =>
          rw [hf] at h
          rcases ih _ _ h with hin | ⟨b, hb, h1, h2⟩
          · by_cases hd : d = true
            · rw [if_pos hd] at hin
              exact Or.inl hin
            · rw [if_neg hd] at hin
              simp only [S3Storage.store_template_asset,
                List.mem_append] at hin
              rcases hin with hin | hin
              · exact Or.inl hin
              · simp only [List.mem_singleton] at hin
                subst hin
                exact Or.inr ⟨a, by simp, rfl, rfl⟩
          · exact Or.inr ⟨b, by simp [hb], h1, h2⟩

theorem migrate_template_assets_fst_postgres (m : RegistryMigrator) :
    (migrate_template_assets m).1.postgres = m.postgres := rfl

theorem migrate_template_assets_fst_entities (m : RegistryMigrator) :
    (migrate_template_assets m).1.entities = m.entities := rfl

theorem migrate_template_assets_fst_mongo (m : RegistryMigrator) :
    (migrate_template_assets m).1.mongo = m.mongo := rfl

theorem migrate_template_assets_fst_options (m : RegistryMigrator) :
    (migrate_template_assets m).1.options = m.options := rfl

theorem migrate_template_assets_fst_s3_closes (m : RegistryMigrator) :
    (migrate_template_assets m).1.s3.closes = m.s3.closes := by
  simp only [migrate_template_assets]
  exact migrate_assets_loop_closes _ _ _ _

theorem migrate_template_assets_dry (m : RegistryMigrator)
    (h : m.options.dry_run = true) :
    (migrate_template_assets m).1.s3 = m.s3 := by
  simp only [migrate_template_assets, h]
  exact migrate_assets_loop_dry _ _ _

theorem load_entities_composed (m : RegistryMigrator) :
    (load (cleanup_s3 (cleanup_postgres m))).entities
      = loaded_entities m := by
  rw [load_entities]
  exact loaded_entities_congr _ _
    (by rw [cleanup_s3_entities, cleanup_postgres_entities])
    (by rw [cleanup_s3_mongo, cleanup_postgres_mongo])

theorem load_options_composed (m : RegistryMigrator) :
    (load (cleanup_s3 (cleanup_postgres m))).options = m.options := by
  rw [load_options, cleanup_s3_options, cleanup_postgres_options]

theorem load_postgres_composed (m : RegistryMigrator) :
    (load (cleanup_s3 (cleanup_postgres m))).postgres
      = (cleanup_postgres m).postgres := by
  rw [load_postgres, cleanup_s3_postgres]

theorem migrate_cases (m : RegistryMigrator) :
    migrate m
      = (if !m.options.fix_integrity
            && (loaded_entities m).check_integrity.result.length > 0
         then (check_integrity_phase
            (load (cleanup_s3 (cleanup_postgres m)))).1
         else (migrate_template_assets (insert (check_integrity_phase
            (load (cleanup_s3 (cleanup_postgres m)))).1)).1) := by
  simp only [migrate]
  rw [check_integrity_phase_snd, check_integrity_phase_fst_options,
    load_entities_composed, load_options_composed]


theorem migrate_executed (m : RegistryMigrator) :
    (migrate m).postgres.executed
      = m.postgres.executed ++ migrate_stmts m := by
  rw [migrate_cases, migrate_stmts]
  by_cases hc : (!m.options.fix_integrity
      && decide ((loaded_entities m).check_integrity.result.length > 0))
      = true
  · simp only [hc, if_true]
    rw [check_integrity_phase_fst_postgres, load_postgres_composed,
      cleanup_postgres_executed]
    simp
  · simp only [hc, if_false, Bool.false_eq_true]
    rw [migrate_template_assets_fst_postgres, insert_executed,
      check_integrity_phase_fst_entities, load_entities_composed,
      check_integrity_phase_fst_postgres, load_postgres_composed,
      cleanup_postgres_executed]
    simp [List.append_assoc]

theorem migrate_postgres_closes (m : RegistryMigrator) :
    (migrate m).postgres.closes = m.postgres.closes := by
  rw [migrate_cases]
  by_cases hc : (!m.options.fix_integrity
      && decide ((loaded_entities m).check_integrity.result.length > 0))
      = true <;>
    simp [hc, check_integrity_phase_fst_postgres, load_postgres_composed,
      cleanup_postgres_closes, migrate_template_assets_fst_postgres,
      insert_closes]

theorem migrate_mongo (m : RegistryMigrator) :
    (migrate m).mongo = m.mongo := by
  rw [migrate_cases]
  by_cases hc : (!m.options.fix_integrity
      && decide ((loaded_entities m).check_integrity.result.length > 0))
      = true <;>
    simp [hc, check_integrity_phase_fst_mongo, load_mongo,
      cleanup_s3_mongo, cleanup_postgres_mongo,
      migrate_template_assets_fst_mongo, insert_mongo]

theorem migrate_s3_closes (m : RegistryMigrator) :
    (migrate m).s3.closes = m.s3.closes := by
  rw [migrate_cases]
  by_cases hc : (!m.options.fix_integrity
      && decide ((loaded_entities m).check_integrity.result.length > 0))
      = true <;>
    simp [hc, check_integrity_phase_fst_s3, load_s3,
      cleanup_s3_s3_closes, cleanup_postgres_s3,
      migrate_template_assets_fst_s3_closes, insert_s3]



theorem check_phase_options_composed (m : RegistryMigrator) :
    ((check_integrity_phase
        (load (cleanup_s3 (cleanup_postgres m)))).1).options
      = m.options := by
  rw [check_integrity_phase_fst_options, load_options_composed]

theorem migrate_committed_dry (m : RegistryMigrator)
    (h : m.options.dry_run = true) :
    (migrate m).postgres.committed = m.postgres.committed := by
  rw [migrate_cases]
  have hx : ((check_integrity_phase
      (load (cleanup_s3 (cleanup_postgres m)))).1).options.dry_run
      = true := by rw [check_phase_options_composed]; exact h
  by_cases hc : (!m.options.fix_integrity
      && decide ((loaded_entities m).check_integrity.result.length > 0))
      = true
  · simp only [hc, if_true]
    rw [check_integrity_phase_fst_postgres, load_postgres_composed,
      cleanup_postgres_committed_dry m h]
  · simp only [hc, if_false, Bool.false_eq_true]
    rw [migrate_template_assets_fst_postgres, insert_committed_dry _ hx,
      check_integrity_phase_fst_postgres, load_postgres_composed,
      cleanup_postgres_committed_dry m h]

theorem migrate_commits_dry (m : RegistryMigrator)
    (h : m.options.dry_run = true) :
    (migrate m).postgres.commits = m.postgres.commits := by
  rw [migrate_cases]
  have hx : ((check_integrity_phase
      (load (cleanup_s3 (cleanup_postgres m)))).1).options.dry_run
      = true := by rw [check_phase_options_composed]; exact h
  by_cases hc : (!m.options.fix_integrity
      && decide ((loaded_entities m).check_integrity.result.length > 0))
      = true
  · simp only [hc, if_true]
    rw [check_integrity_phase_fst_postgres, load_postgres_composed,
      cleanup_postgres_commits_dry m h]
  · simp only [hc, if_false, Bool.false_eq_true]
    rw [migrate_template_assets_fst_postgres, insert_commits_dry _ hx,
      check_integrity_phase_fst_postgres, load_postgres_composed,
      cleanup_postgres_commits_dry m h]

theorem migrate_s3_dry (m : RegistryMigrator)
    (h : m.options.dry_run = true) :
    (migrate m).s3 = m.s3 := by
  rw [migrate_cases]
  have hs3 : cleanup_s3 (cleanup_postgres m) = cleanup_postgres m :=
    cleanup_s3_dry _ (by rw [cleanup_postgres_options]; exact h)
  have hx : ((check_integrity_phase
      (load (cleanup_s3 (cleanup_postgres m)))).1).options.dry_run
      = true := by rw [check_phase_options_composed]; exact h
  have hxi : (insert (check_integrity_phase
      (load (cleanup_s3 (cleanup_postgres m)))).1).options.dry_run
      = true := by rw [insert_options]; exact hx
  by_cases hc : (!m.options.fix_integrity
      && decide ((loaded_entities m).check_integrity.result.length > 0))
      = true
  · simp only [hc, if_true]
    rw [check_integrity_phase_fst_s3, load_s3, hs3, cleanup_postgres_s3]
  · simp only [hc, if_false, Bool.false_eq_true]
    rw [migrate_template_assets_dry _ hxi, insert_s3,
      check_integrity_phase_fst_s3, load_s3, hs3, cleanup_postgres_s3]

theorem migrate_stmts_setDryRun (m : RegistryMigrator) (b : Bool) :
    migrate_stmts (setDryRun m b) = migrate_stmts m := rfl

theorem setDryRun_postgres (m : RegistryMigrator) (b : Bool) :
    (setDryRun m b).postgres = m.postgres := rfl

theorem migrate_template_assets_counts_eq (m : RegistryMigrator)
    (b : Bool) :
    (migrate_template_assets m).2
      = (migrate_template_assets (setDryRun m b)).2 := by
  simp only [migrate_template_assets]
  rw [migrate_assets_loop_counts, migrate_assets_loop_counts]
  rfl


end RegistryMigrator

theorem not_mem_ok_instances {α : Type} (getOk : α → Bool) (l : List α)
    (r : α) (h : getOk r = false) : r ∉ ok_instances getOk l := by
  simp [ok_instances, List.mem_filter, h]

theorem not_mem_valid_entries {α : Type} (getOk : α → Bool) (l : List α)
    (r : α) (h : getOk r = false) : r ∉ valid_entries getOk l := by
  simp [valid_entries, List.mem_filter, h]

theorem mem_valid_entries_ok {α : Type} (getOk : α → Bool) (l : List α)
    (r : α) (h : r ∈ valid_entries getOk l) : getOk r = true := by
  simp only [valid_entries, List.mem_filter] at h
  cases hg : getOk r
  · rw [hg] at h
    simp at h
  · rfl

/-- Claim C2: the exclusion invariant.  A record whose integrity marker is
Invalid after verification is never handed to the relational insertion
loop (it is filtered out of ok_instances, the list _run_insert passes to
execute_loop, for every entity kind), never iterated by the asset-transfer
phase, and every object the asset transfer stores in the object store
stems from a Valid template asset. -/
theorem invalid_records_excluded (m : RegistryMigrator) :
    (∀ k : ActionKey, k.integrity_ok = false →
        k ∉ ok_instances (fun x => x.integrity_ok)
              m.entities.action_keys) ∧
    (∀ a : AuditEntry, a.integrity_ok = false →
        a ∉ ok_instances (fun x => x.integrity_ok)
              m.entities.audit_entries) ∧
    (∀ o : Organization, o.integrity_ok = false →
        o ∉ ok_instances (fun x => x.integrity_ok)
              m.entities.organizations) ∧
    (∀ p : Package, p.integrity_ok = false →
        p ∉ ok_instances (fun x => x.integrity_ok) m.entities.packages) ∧
    (∀ t : Template, t.integrity_ok = false →
        t ∉ ok_instances (fun x => x.integrity_ok) m.entities.templates) ∧
    (∀ a : TemplateAsset, a.integrity_ok = false →
        a ∉ ok_instances (fun x => x.integrity_ok)
              m.entities.template_assets
          ∧ a ∉ RegistryMigrator.assets_to_migrate m) ∧
    (∀ f : TemplateFile, f.integrity_ok = false →
        f ∉ ok_instances (fun x => x.integrity_ok)
              m.entities.template_files) ∧
    (∀ obj : S3Object,
        obj ∈ (RegistryMigrator.migrate_template_assets m).1.s3.objects →
        obj ∈ m.s3.objects
          ∨ ∃ a, a ∈ RegistryMigrator.assets_to_migrate m
              ∧ a.integrity_ok = true
              ∧ obj.template_id = a.template_id
              ∧ obj.file_name = a.uuid) := by
  refine ⟨fun k h => not_mem_ok_instances _ _ _ h,
    fun a h => not_mem_ok_instances _ _ _ h,
    fun o h => not_mem_ok_instances _ _ _ h,
    fun p h => not_mem_ok_instances _ _ _ h,
    fun t h => not_mem_ok_instances _ _ _ h,
    fun a h => ⟨not_mem_ok_instances _ _ _ h,
      not_mem_valid_entries _ _ _ h⟩,
    fun f h => not_mem_ok_instances _ _ _ h,
    fun obj hobj => ?_⟩
  have hm := RegistryMigrator.migrate_assets_loop_objects m.mongo
    m.options.dry_run (RegistryMigrator.assets_to_migrate m) m.s3 obj hobj
  rcases hm with hin | ⟨a, ha, h1, h2⟩
  · exact Or.inl hin
  · exact Or.inr ⟨a, ha, mem_valid_entries_ok _ _ _ ha, h1, h2⟩

theorem invalid_records_excluded_witness :
    ({ uuid := "x", template_id := "t", integrity_ok := false }
        : TemplateAsset).integrity_ok = false ∧
    ({ uuid := "x", template_id := "t", integrity_ok := false }
        : TemplateAsset)
      ∉ RegistryMigrator.assets_to_migrate
          { options := {},
            entities := { template_assets :=
              [{ uuid := "x", template_id := "t",
                 integrity_ok := false }] } } :=
  ⟨rfl, ((invalid_records_excluded _).2.2.2.2.2.1 _ rfl).2⟩

/-- Claim C5: dry-run non-persistence.  With the dry-run option set, a
whole migrate run issues no commit (the durable relational state and
commit count are unchanged), leaves the object store untouched (no bucket
created, no object deleted or stored), yet still sends exactly the same
delete and insert statements as the corresponding non-dry run, and the
asset-transfer phase reports the same stored/skipped counts. -/
theorem dry_run_nonpersistence (m : RegistryMigrator)
    (h : m.options.dry_run = true) :
    (RegistryMigrator.migrate m).postgres.committed
        = m.postgres.committed ∧
    (RegistryMigrator.migrate m).postgres.commits
        = m.postgres.commits ∧
    (RegistryMigrator.migrate m).s3 = m.s3 ∧
    (RegistryMigrator.migrate m).postgres.executed
        = (RegistryMigrator.migrate (setDryRun m false)).postgres.executed ∧
    (RegistryMigrator.migrate_template_assets m).2
        = (RegistryMigrator.migrate_template_assets
            (setDryRun m false)).2 := by
  refine ⟨RegistryMigrator.migrate_committed_dry m h,
    RegistryMigrator.migrate_commits_dry m h,
    RegistryMigrator.migrate_s3_dry m h, ?_,
    RegistryMigrator.migrate_template_assets_counts_eq m false⟩
  rw [RegistryMigrator.migrate_executed, RegistryMigrator.migrate_executed,
    RegistryMigrator.migrate_stmts_setDryRun,
    RegistryMigrator.setDryRun_postgres]

theorem dry_run_nonpersistence_witness :
    ({ options := { dry_run := true } } : RegistryMigrator).options.dry_run
        = true ∧
    (RegistryMigrator.migrate
        ({ options := { dry_run := true } } : RegistryMigrator)).s3
      = ({ options := { dry_run := true } } : RegistryMigrator).s3 :=
  ⟨rfl, (dry_run_nonpersistence _ rfl).2.2.1⟩

/-- Claim C7: the insertion phase sends its statements in exactly the
_INSERT_ARGS order: Package, Template, Audit, Organization, ActionKey,
TemplateAsset, TemplateFile; the Package batch, and only it, is wrapped in
a disable and a re-enable of the table's integrity triggers. -/
theorem insert_order_and_triggers (m : RegistryMigrator) :
    (RegistryMigrator.insert m).postgres.executed
      = m.postgres.executed ++
        [PGStmt.disableTriggers packageTable,
         PGStmt.insertInto packageTable
           (ok_instances (fun p => p.integrity_ok)
             m.entities.packages).length,
         PGStmt.enableTriggers packageTable,
         PGStmt.insertInto templateTable
           (ok_instances (fun t => t.integrity_ok)
             m.entities.templates).length,
         PGStmt.insertInto auditTable
           (ok_instances (fun a => a.integrity_ok)
             m.entities.audit_entries).length,
         PGStmt.insertInto organizationTable
           (ok_instances (fun o => o.integrity_ok)
             m.entities.organizations).length,
         PGStmt.insertInto actionKeyTable
           (ok_instances (fun k => k.integrity_ok)
             m.entities.action_keys).length,
         PGStmt.insertInto templateAssetTable
           (ok_instances (fun a => a.integrity_ok)
             m.entities.template_assets).length,
         PGStmt.insertInto templateFileTable
           (ok_instances (fun f => f.integrity_ok)
             m.entities.template_files).length] :=
  RegistryMigrator.insert_executed m

/-- Claim C8 (counterexample): a full run followed by finish releases only
the relational-store connection.  On a concrete run the document-store and
object-store clients have never been closed while the relational client
was closed once, refuting that all three connections are released. -/
theorem finish_leaves_sources_open_counterexample :
    (RegistryMigrator.finish (RegistryMigrator.migrate
        { options := {} })).mongo.closes = 0 ∧
    (RegistryMigrator.finish (RegistryMigrator.migrate
        { options := {} })).s3.closes = 0 ∧
    (RegistryMigrator.finish (RegistryMigrator.migrate
        { options := {} })).postgres.closes = 1 := by
  decide

/-- Claim C8 (amended): finish closes exactly the relational-store
connection, once per call; it never releases the document-store or
object-store clients, and migrate itself closes no connection at all
(finish is not invoked by migrate). -/
theorem finish_closes_only_postgres (m : RegistryMigrator) :
    (RegistryMigrator.finish m).postgres.closes = m.postgres.closes + 1 ∧
    (RegistryMigrator.finish m).mongo.closes = m.mongo.closes ∧
    (RegistryMigrator.finish m).s3.closes = m.s3.closes ∧
    (RegistryMigrator.migrate m).postgres.closes = m.postgres.closes ∧
    (RegistryMigrator.migrate m).mongo.closes = m.mongo.closes ∧
    (RegistryMigrator.migrate m).s3.closes = m.s3.closes :=
  ⟨rfl, rfl, rfl, RegistryMigrator.migrate_postgres_closes m,
   by rw [RegistryMigrator.migrate_mongo],
   RegistryMigrator.migrate_s3_closes m⟩

end Dsw2to3
